import Mathlib

/-!
Shallow embedding of the Real-Time Multi-threaded Application Simulator
(src/synchronization.py and src/models.py) and verification of the spec
claims about it.

Threads are identified by natural numbers; the current state of every
thread is a map from identifiers to states.  Each Semaphore / Monitor
operation of the source runs under the instance lock, so it is embedded
as one atomic function from the pre-state to the post-state.  Wall-clock
sleeps are timing only and carry no state, so they are dropped.
-/

namespace ThreadSim

/-- Thread lifecycle states.  Modelled from the spec: the enum lives in the
repository's utils.py, which is not among the sources; spec section 3 lists
the variants NEW, READY, RUNNING, BLOCKED, TERMINATED. -/
inductive ThreadState where
  | NEW
  | READY
  | RUNNING
  | BLOCKED
  | TERMINATED
  deriving DecidableEq, Repr

/-- Identifier of a simulated thread. -/
abbrev ThreadId := Nat

/-- The current state of every thread, keyed by identifier. -/
abbrev States := ThreadId → ThreadState

/-- Update one thread's entry in the state map unconditionally.  This embeds
the direct thread.state assignments made by Monitor in synchronization.py. -/
def setThread (ts : States) (t : ThreadId) (st : ThreadState) : States :=
  fun u => if u = t then st else ts u

/-- Modelled from the spec: Thread.set_state, whose class Thread is not
among the sources.  Spec section 4.1 makes it the only mutator of a thread's
current state and a no-op (a reported misuse) when the thread is already
TERMINATED; otherwise it updates the state.  Semaphore in
synchronization.py mutates thread states only through this call. -/
def set_state (ts : States) (t : ThreadId) (st : ThreadState) : States :=
  if ts t = ThreadState.TERMINATED then ts else setThread ts t st

/-- Modelled from the spec: the history entry a set_state call appends
(spec section 4.1, written exactly once per transition), so empty when the
call is the no-op on an already-TERMINATED thread. -/
def stateTrace (ts : States) (t : ThreadId) (st : ThreadState) :
    List (ThreadId × ThreadState) :=
  if ts t = ThreadState.TERMINATED then [] else [(t, st)]

/-- Events pushed to the message queue by Semaphore (synchronization.py):
semaphore_created on construction, semaphore_wait with a success flag, and
semaphore_signal carrying the woken thread id if any. -/
inductive Event where
  | semaphoreCreated (semId : Nat) (count : Int)
  | semaphoreWait (threadId : ThreadId) (semId : Nat) (success : Bool)
  | semaphoreSignal (semId : Nat) (threadId : Option ThreadId)
  deriving DecidableEq, Repr

/-- Semaphore state from synchronization.py: an integer count (a Python int,
so embedded as Int) and a FIFO queue of blocked thread ids.  The sem_id field
carries Python's id(self), used only in emitted events. -/
structure Semaphore where
  count : Int
  queue : List ThreadId
  semId : Nat
  deriving DecidableEq, Repr

/-- Semaphore.__init__(count): count from the argument, empty queue, and a
semaphore_created event. -/
def Semaphore.make (c : Int) (semId : Nat) : Semaphore × Event :=
  (⟨c, [], semId⟩, Event.semaphoreCreated semId c)

/-- Result of one Semaphore operation: the new semaphore, the new thread
state map, the state transitions performed in program order, and the event
pushed to the message queue. -/
structure SemOut where
  sem : Semaphore
  states : States
  trace : List (ThreadId × ThreadState)
  event : Event

/-- Semaphore.wait(thread) from synchronization.py: call set_state READY on
the thread; then under the lock, if count > 0 decrement count and call
set_state RUNNING, emitting success=True; else call set_state BLOCKED,
append the thread to the queue, and emit success=False.  The branch
condition does not read the thread state, so hoisting the READY call into
both branches is behaviour-preserving. -/
def Semaphore.wait (s : Semaphore) (ts : States) (t : ThreadId) : SemOut :=
  if 0 < s.count then
    { sem := { s with count := s.count - 1 }
      states := set_state (set_state ts t ThreadState.READY) t ThreadState.RUNNING
      trace := stateTrace ts t ThreadState.READY ++
        stateTrace (set_state ts t ThreadState.READY) t ThreadState.RUNNING
      event := Event.semaphoreWait t s.semId true }
  else
    { sem := { s with queue := s.queue ++ [t] }
      states := set_state (set_state ts t ThreadState.READY) t ThreadState.BLOCKED
      trace := stateTrace ts t ThreadState.READY ++
        stateTrace (set_state ts t ThreadState.READY) t ThreadState.BLOCKED
      event := Event.semaphoreWait t s.semId false }

/-- Semaphore.signal() from synchronization.py: under the lock, if the queue
is non-empty pop its head (oldest waiter) and call set_state TERMINATED on
that thread, leaving count unchanged; else increment count.  An event names
the popped thread, or None when there was no waiter. -/
def Semaphore.signal (s : Semaphore) (ts : States) : SemOut :=
  match s.queue with
  | t :: rest =>
      { sem := { s with queue := rest }
        states := set_state ts t ThreadState.TERMINATED
        trace := stateTrace ts t ThreadState.TERMINATED
        event := Event.semaphoreSignal s.semId (some t) }
  | [] =>
      { sem := { s with count := s.count + 1 }
        states := ts
        trace := []
        event := Event.semaphoreSignal s.semId none }

/-- One semaphore operation of an interleaving: a wait by some thread, or a
signal. -/
inductive SemOp where
  | wait (t : ThreadId)
  | signal
  deriving DecidableEq, Repr

/-- Apply one operation to the semaphore and the thread state map. -/
def runSemOp (s : Semaphore) (ts : States) : SemOp → Semaphore × States
  | SemOp.wait t => ((s.wait ts t).sem, (s.wait ts t).states)
  | SemOp.signal => ((s.signal ts).sem, (s.signal ts).states)

/-- Apply a sequence of operations in order.  Each source operation runs
under the semaphore's lock, so any concurrent execution is some such
sequence. -/
def runSemOps (s : Semaphore) (ts : States) : List SemOp → Semaphore × States
  | [] => (s, ts)
  | op :: ops => runSemOps (runSemOp s ts op).1 (runSemOp s ts op).2 ops

/-- Monitor state from synchronization.py: only the FIFO waiting queue (the
lock and condition variable carry no persistent data). -/
structure Monitor where
  waiting_queue : List ThreadId
  deriving DecidableEq, Repr

/-- Result of one Monitor operation: the new monitor, the new thread state
map, and whether the condition-variable branch ran (for enter, whether the
caller was appended and suspended; for exit, whether a waiter was popped and
notify was called). -/
structure MonOut where
  monitor : Monitor
  states : States
  condBranch : Bool

/-- Monitor.enter(thread) from synchronization.py: assign the thread state
READY; then under the lock, if the thread's state is BLOCKED append it to
the waiting queue and wait on the condition; in all cases assign the thread
state RUNNING before returning. -/
def Monitor.enter (m : Monitor) (ts : States) (t : ThreadId) : MonOut :=
  let ts1 := setThread ts t ThreadState.READY
  if ts1 t = ThreadState.BLOCKED then
    { monitor := ⟨m.waiting_queue ++ [t]⟩
      states := setThread ts1 t ThreadState.RUNNING
      condBranch := true }
  else
    { monitor := m
      states := setThread ts1 t ThreadState.RUNNING
      condBranch := false }

/-- Monitor.exit(thread) from synchronization.py: under the lock, if the
waiting queue is non-empty pop its head, assign that thread state BLOCKED
and call notify; otherwise do nothing.  The caller argument is used only in
a console print. -/
def Monitor.exit (m : Monitor) (ts : States) (t : ThreadId) : MonOut :=
  match m.waiting_queue with
  | next :: rest =>
      { monitor := ⟨rest⟩
        states := setThread ts next ThreadState.BLOCKED
        condBranch := true }
  | [] =>
      { monitor := m
        states := ts
        condBranch := false }

/-- Names of the methods the Semaphore class of synchronization.py defines
(beyond construction): wait and signal, and nothing else. -/
def semaphoreMethodNames : List String := ["__init__", "wait", "signal"]

/-- Attribute calls that many_to_one_worker in models.py performs on its
scheduler gate, in program order: scheduler.acquire() before the simulated
work and scheduler.release() after it. -/
def manyToOneWorkerGateCalls : List String := ["acquire", "release"]

/-- The single shared admission gate that many_to_one in models.py creates
for all workers: Semaphore(1) from synchronization.py. -/
def manyToOneGate : Semaphore := (Semaphore.make 1 0).1

/-- Pool size of many_to_many in models.py: the source hardcodes the
constant 3 in scheduler_count = min(num_threads, 3). -/
def kernel_thread_count : Nat := 3

/-- scheduler_count from many_to_many in models.py: min(num_threads, 3). -/
def scheduler_count (num_threads : Nat) : Nat :=
  min num_threads kernel_thread_count

/-- The slot gates many_to_many creates: scheduler_count independent
Semaphore(1) instances. -/
def many_to_many_schedulers (num_threads : Nat) : List Semaphore :=
  (List.range (scheduler_count num_threads)).map (fun i => (Semaphore.make 1 i).1)

/-- The gate assignment many_to_many performs: thread i is started with
schedulers[i mod scheduler_count] as its gate. -/
def many_to_many_assignment (num_threads : Nat) : List (Nat × Nat) :=
  (List.range num_threads).map (fun i => (i, i % scheduler_count num_threads))

/-- A state map in which every thread is NEW (freshly created, spec
section 3: NEW is the only initial state). -/
def allNew : States := fun _ => ThreadState.NEW

/-- A state map in which every thread is RUNNING. -/
def allRunning : States := fun _ => ThreadState.RUNNING

/-- A state map in which exactly thread 1 is BLOCKED (a queued waiter) and
every other thread is NEW. -/
def waiterOneBlocked : States :=
  fun u => if u = 1 then ThreadState.BLOCKED else ThreadState.NEW

/-- A state map in which exactly thread 9 is TERMINATED and every other
thread is NEW. -/
def oneTerminated : States :=
  fun u => if u = 9 then ThreadState.TERMINATED else ThreadState.NEW

/-- Scenario for monitor mutual exclusion: thread 0 enters a fresh monitor. -/
def twoEnterFirst : MonOut := Monitor.enter ⟨[]⟩ allNew 0

/-- Scenario continued: thread 1 then enters the same monitor while thread 0
is still inside (no exit has occurred). -/
def twoEnterSecond : MonOut :=
  Monitor.enter twoEnterFirst.monitor twoEnterFirst.states 1

/-- Writing a thread's state twice in a row keeps only the second write. -/
theorem setThread_setThread (ts : States) (t : ThreadId) (a b : ThreadState) :
    setThread (setThread ts t a) t b = setThread ts t b := by
  funext u
  unfold setThread
  split_ifs <;> rfl

/-- Reading back the thread just written yields the written state. -/
theorem setThread_self (ts : States) (t : ThreadId) (st : ThreadState) :
    setThread ts t st t = st := by
  simp [setThread]

/-- On a thread that is not already TERMINATED, set_state is the plain
update. -/
theorem set_state_of_not_terminated (ts : States) (t : ThreadId)
    (st : ThreadState) (h : ts t ≠ ThreadState.TERMINATED) :
    set_state ts t st = setThread ts t st := by
  simp [set_state, h]

/-- Writing TERMINATED via set_state leaves the thread TERMINATED whether or
not it already was. -/
theorem set_state_terminated_self (ts : States) (t : ThreadId) :
    set_state ts t ThreadState.TERMINATED t = ThreadState.TERMINATED := by
  unfold set_state
  split_ifs with h
  · exact h
  · exact setThread_self ts t ThreadState.TERMINATED

/-- Two successive set_state writes to a thread that is not already
TERMINATED, the first of them to a non-TERMINATED state, leave the thread in
the second written state. -/
theorem set_state_twice_self (ts : States) (t : ThreadId) (a : ThreadState)
    (ha : a ≠ ThreadState.TERMINATED) (h : ts t ≠ ThreadState.TERMINATED)
    (b : ThreadState) : set_state (set_state ts t a) t b t = b := by
  rw [set_state_of_not_terminated ts t a h]
  have h2 : setThread ts t a t ≠ ThreadState.TERMINATED := by
    rw [setThread_self]
    exact ha
  rw [set_state_of_not_terminated _ _ _ h2, setThread_self]

/-- One semaphore operation keeps the count non-negative. -/
theorem runSemOp_count_nonneg (s : Semaphore) (ts : States) (op : SemOp)
    (h : 0 ≤ s.count) : 0 ≤ (runSemOp s ts op).1.count := by
  cases op with
  | wait t =>
      simp only [runSemOp, Semaphore.wait]
      split
      · simp only []
        omega
      · simpa using h
  | signal =>
      simp only [runSemOp, Semaphore.signal]
      cases hq : s.queue with
      | nil => simp [hq]; omega
      | cons a l => simpa [hq] using h

/-- A sequence of semaphore operations keeps the count non-negative. -/
theorem runSemOps_count_nonneg (ops : List SemOp) (s : Semaphore) (ts : States)
    (h : 0 ≤ s.count) : 0 ≤ (runSemOps s ts ops).1.count := by
  induction ops generalizing s ts with
  | nil => simpa [runSemOps] using h
  | cons op ops ih =>
      simp only [runSemOps]
      exact ih _ _ (runSemOp_count_nonneg s ts op h)

/-- C1 counterexample: on a semaphore with count 0 and waiting queue [7],
signal() leaves the popped thread 7 in state TERMINATED, not RUNNING, so the
claim that signal transitions the oldest waiter to RUNNING is false at this
input (count is indeed left at 0). -/
theorem signal_leaves_popped_waiter_terminated :
    (Semaphore.signal ⟨0, [7], 0⟩ allNew).states 7 = ThreadState.TERMINATED ∧
    (Semaphore.signal ⟨0, [7], 0⟩ allNew).states 7 ≠ ThreadState.RUNNING ∧
    (Semaphore.signal ⟨0, [7], 0⟩ allNew).sem.count = 0 := by
  decide

/-- C1 amended: for every semaphore whose wait queue is non-empty, signal()
pops the oldest waiting thread (FIFO), transitions that thread to TERMINATED
(not RUNNING), leaves count unchanged, and reports the popped thread in the
emitted event. -/
theorem signal_pops_oldest_fifo (s : Semaphore) (ts : States) (t : ThreadId)
    (rest : List ThreadId) (h : s.queue = t :: rest) :
    (Semaphore.signal s ts).sem.count = s.count ∧
    (Semaphore.signal s ts).sem.queue = rest ∧
    (Semaphore.signal s ts).states t = ThreadState.TERMINATED ∧
    (Semaphore.signal s ts).event = Event.semaphoreSignal s.semId (some t) := by
  obtain ⟨c, q, i⟩ := s
  cases h
  exact ⟨rfl, rfl, set_state_terminated_self ts t, rfl⟩

/-- C1 amended witness: the amended claim evaluated on the concrete
semaphore with count 0 and queue [7, 8]. -/
theorem signal_pops_oldest_fifo_witness :
    (⟨0, [7, 8], 0⟩ : Semaphore).queue = 7 :: [8] ∧
    ((Semaphore.signal ⟨0, [7, 8], 0⟩ allNew).sem.count = 0 ∧
     (Semaphore.signal ⟨0, [7, 8], 0⟩ allNew).sem.queue = [8] ∧
     (Semaphore.signal ⟨0, [7, 8], 0⟩ allNew).states 7 = ThreadState.TERMINATED ∧
     (Semaphore.signal ⟨0, [7, 8], 0⟩ allNew).event =
       Event.semaphoreSignal 0 (some 7)) :=
  ⟨rfl, signal_pops_oldest_fifo ⟨0, [7, 8], 0⟩ allNew 7 [8] rfl⟩

/-- C2: the monitor does not provide mutual exclusion.  From a fresh monitor
with all threads NEW, thread 0 enters, then thread 1 enters with no
intervening exit; neither call blocks or enqueues, and afterwards both
threads are simultaneously RUNNING inside the monitor, violating the
at-most-one-inside invariant. -/
theorem monitor_admits_two_threads_inside :
    twoEnterSecond.states 0 = ThreadState.RUNNING ∧
    twoEnterSecond.states 1 = ThreadState.RUNNING ∧
    twoEnterFirst.condBranch = false ∧
    twoEnterSecond.condBranch = false ∧
    twoEnterSecond.monitor.waiting_queue = [] := by
  decide

/-- C3: on a monitor whose waiting queue is [1], exit() called by thread 0
pops the oldest waiter (FIFO) but transitions it to BLOCKED, not to
RUNNING as the spec requires. -/
theorem exit_sets_popped_waiter_blocked :
    (Monitor.exit ⟨[1]⟩ waiterOneBlocked 0).monitor.waiting_queue = [] ∧
    (Monitor.exit ⟨[1]⟩ waiterOneBlocked 0).states 1 = ThreadState.BLOCKED ∧
    (Monitor.exit ⟨[1]⟩ waiterOneBlocked 0).states 1 ≠ ThreadState.RUNNING := by
  decide

/-- C4: a semaphore created with a non-negative initial count keeps a
non-negative count under every sequence of wait and signal operations (each
operation runs under the instance lock, so every concurrent interleaving is
such a sequence, and every intermediate point is the end of some
sequence). -/
theorem semaphore_count_never_negative (c : Int) (semId : Nat)
    (ops : List SemOp) (ts : States) (h : 0 ≤ c) :
    0 ≤ (runSemOps (Semaphore.make c semId).1 ts ops).1.count :=
  runSemOps_count_nonneg ops _ ts h

/-- C4 witness: a concrete interleaving of two waits and two signals on a
semaphore created with count 1. -/
theorem semaphore_count_never_negative_witness :
    (0 : Int) ≤ 1 ∧
    0 ≤ (runSemOps (Semaphore.make 1 0).1 allNew
          [SemOp.wait 0, SemOp.wait 1, SemOp.signal, SemOp.signal]).1.count :=
  ⟨by decide,
   semaphore_count_never_negative 1 0
     [SemOp.wait 0, SemOp.wait 1, SemOp.signal, SemOp.signal] allNew (by decide)⟩

/-- C5 counterexample: thread 9 is already TERMINATED.  With count 1 > 0,
wait(9) still decrements the count, but by the spec 4.1 rule that set_state
on an already-TERMINATED thread is a no-op, no state transition occurs: the
thread is never set READY (the transition trace is empty) and ends
TERMINATED, not RUNNING, so the original claim quantified over every thread
is false at this input. -/
theorem wait_on_terminated_counterexample :
    oneTerminated 9 = ThreadState.TERMINATED ∧
    (Semaphore.wait ⟨1, [], 0⟩ oneTerminated 9).states 9 = ThreadState.TERMINATED ∧
    (Semaphore.wait ⟨1, [], 0⟩ oneTerminated 9).states 9 ≠ ThreadState.RUNNING ∧
    (Semaphore.wait ⟨1, [], 0⟩ oneTerminated 9).trace = [] ∧
    (Semaphore.wait ⟨1, [], 0⟩ oneTerminated 9).sem.count = 0 := by
  decide

/-- C5 amended: for every Semaphore and every thread that is not already
TERMINATED, wait(thread) first transitions the thread to READY (head of the
transition trace); then, if count > 0, it decrements count, leaves the
queue unchanged, transitions the thread to RUNNING and reports success;
otherwise it leaves count unchanged, appends the thread to the wait queue,
transitions it to BLOCKED and reports non-success. -/
theorem wait_spec (s : Semaphore) (ts : States) (t : ThreadId)
    (h : ts t ≠ ThreadState.TERMINATED) :
    (Semaphore.wait s ts t).trace.head? = some (t, ThreadState.READY) ∧
    (if 0 < s.count then
      (Semaphore.wait s ts t).sem.count = s.count - 1 ∧
      (Semaphore.wait s ts t).sem.queue = s.queue ∧
      (Semaphore.wait s ts t).states t = ThreadState.RUNNING ∧
      (Semaphore.wait s ts t).event = Event.semaphoreWait t s.semId true
    else
      (Semaphore.wait s ts t).sem.count = s.count ∧
      (Semaphore.wait s ts t).sem.queue = s.queue ++ [t] ∧
      (Semaphore.wait s ts t).states t = ThreadState.BLOCKED ∧
      (Semaphore.wait s ts t).event = Event.semaphoreWait t s.semId false) := by
  have hready : ThreadState.READY ≠ ThreadState.TERMINATED := by decide
  have hr : stateTrace ts t ThreadState.READY = [(t, ThreadState.READY)] := by
    simp [stateTrace, h]
  by_cases hc : 0 < s.count <;>
    simp [Semaphore.wait, hc, hr, set_state_twice_self ts t ThreadState.READY hready h]

/-- C5 amended witness: the amended claim evaluated for thread 5, which is
NEW, on a semaphore with count 1 and an empty queue. -/
theorem wait_spec_witness :
    allNew 5 ≠ ThreadState.TERMINATED ∧
    ((Semaphore.wait ⟨1, [], 0⟩ allNew 5).trace.head? = some (5, ThreadState.READY) ∧
     (if 0 < (⟨1, [], 0⟩ : Semaphore).count then
       (Semaphore.wait ⟨1, [], 0⟩ allNew 5).sem.count = (⟨1, [], 0⟩ : Semaphore).count - 1 ∧
       (Semaphore.wait ⟨1, [], 0⟩ allNew 5).sem.queue = (⟨1, [], 0⟩ : Semaphore).queue ∧
       (Semaphore.wait ⟨1, [], 0⟩ allNew 5).states 5 = ThreadState.RUNNING ∧
       (Semaphore.wait ⟨1, [], 0⟩ allNew 5).event =
         Event.semaphoreWait 5 (⟨1, [], 0⟩ : Semaphore).semId true
     else
       (Semaphore.wait ⟨1, [], 0⟩ allNew 5).sem.count = (⟨1, [], 0⟩ : Semaphore).count ∧
       (Semaphore.wait ⟨1, [], 0⟩ allNew 5).sem.queue = (⟨1, [], 0⟩ : Semaphore).queue ++ [5] ∧
       (Semaphore.wait ⟨1, [], 0⟩ allNew 5).states 5 = ThreadState.BLOCKED ∧
       (Semaphore.wait ⟨1, [], 0⟩ allNew 5).event =
         Event.semaphoreWait 5 (⟨1, [], 0⟩ : Semaphore).semId false)) :=
  ⟨by decide, wait_spec ⟨1, [], 0⟩ allNew 5 (by decide)⟩

/-- C6 counterexample: thread 0 is NEW (it never entered the monitor, so it
does not hold entry), yet its exit() call on a monitor whose waiting queue
is [1] pops the queue and transitions thread 1 to BLOCKED: an invalid exit
does mutate the queue and thread states, and nothing is reported. -/
theorem exit_by_nonholder_mutates_queue :
    allNew 0 = ThreadState.NEW ∧
    (Monitor.exit ⟨[1]⟩ allNew 0).monitor.waiting_queue = [] ∧
    ([1] : List ThreadId) ≠ [] ∧
    (Monitor.exit ⟨[1]⟩ allNew 0).states 1 = ThreadState.BLOCKED ∧
    allNew 1 ≠ ThreadState.BLOCKED := by
  decide

/-- C6 amended: exit(thread) performs no holder check at all: its effect is
identical for every caller, and whenever the waiting queue is non-empty it
pops the oldest waiter (mutating the queue), sets that waiter BLOCKED, and
runs the notify branch, even when the caller does not hold entry; no warning
is reported. -/
theorem exit_ignores_caller (m : Monitor) (ts : States) (t u : ThreadId)
    (h : m.waiting_queue ≠ []) :
    Monitor.exit m ts t = Monitor.exit m ts u ∧
    (Monitor.exit m ts t).monitor.waiting_queue = m.waiting_queue.tail ∧
    (∀ w, m.waiting_queue.head? = some w →
      (Monitor.exit m ts t).states w = ThreadState.BLOCKED) ∧
    (Monitor.exit m ts t).condBranch = true := by
  obtain ⟨q⟩ := m
  cases q with
  | nil => exact absurd rfl h
  | cons a l =>
      refine ⟨rfl, rfl, ?_, rfl⟩
      intro w hw
      have haw : a = w := by simpa using hw
      subst haw
      exact setThread_self ts a ThreadState.BLOCKED

/-- C6 amended witness: the amended claim evaluated on the monitor with
waiting queue [2] and the two distinct callers 0 and 5, neither holding
entry. -/
theorem exit_ignores_caller_witness :
    ([2] : List ThreadId) ≠ [] ∧
    (Monitor.exit ⟨[2]⟩ allNew 0 = Monitor.exit ⟨[2]⟩ allNew 5 ∧
     (Monitor.exit ⟨[2]⟩ allNew 0).monitor.waiting_queue =
       ([2] : List ThreadId).tail ∧
     (∀ w, ([2] : List ThreadId).head? = some w →
       (Monitor.exit ⟨[2]⟩ allNew 0).states w = ThreadState.BLOCKED) ∧
     (Monitor.exit ⟨[2]⟩ allNew 0).condBranch = true) :=
  ⟨by decide, exit_ignores_caller ⟨[2]⟩ allNew 0 5 (by decide)⟩

/-- C7: the MANY_TO_ONE gate is Semaphore(1) from synchronization.py, but
the first gate operation of every worker is scheduler.acquire(), and neither
acquire nor release is among the methods that this Semaphore class defines,
so every worker fails with AttributeError at its very first gate call and
never reaches its simulated work. -/
theorem many_to_one_worker_gate_calls_undefined :
    manyToOneGate.count = 1 ∧
    manyToOneWorkerGateCalls.head? = some "acquire" ∧
    "acquire" ∉ semaphoreMethodNames ∧
    "release" ∉ semaphoreMethodNames := by
  decide

/-- C8: many_to_many with N requested threads creates exactly
min(N, kernel_thread_count) slot gates, each a Semaphore with count 1, and
assigns thread i (for every i < N) to gate i mod min(N, kernel_thread_count);
the pool size constant is the source's hardcoded 3. -/
theorem many_to_many_pool_spec (N i : Nat) (h : i < N) :
    (many_to_many_schedulers N).length = min N kernel_thread_count ∧
    (i, i % min N kernel_thread_count) ∈ many_to_many_assignment N ∧
    ∀ g ∈ many_to_many_schedulers N, g.count = 1 := by
  refine ⟨?_, ?_, ?_⟩
  · simp [many_to_many_schedulers, scheduler_count]
  · simp only [many_to_many_assignment, scheduler_count, List.mem_map]
    exact ⟨i, List.mem_range.mpr h, rfl⟩
  · intro g hg
    simp only [many_to_many_schedulers, List.mem_map] at hg
    obtain ⟨j, hj, hgj⟩ := hg
    rw [← hgj]
    rfl

/-- C8 witness: with 5 requested threads the pool has min(5, 3) = 3 gates of
count 1 and thread 4 is assigned to gate 4 mod 3 = 1. -/
theorem many_to_many_pool_spec_witness :
    4 < 5 ∧
    ((many_to_many_schedulers 5).length = min 5 kernel_thread_count ∧
     (4, 4 % min 5 kernel_thread_count) ∈ many_to_many_assignment 5 ∧
     ∀ g ∈ many_to_many_schedulers 5, g.count = 1) :=
  ⟨by decide, many_to_many_pool_spec 5 4 (by decide)⟩

/-- C9: enter(thread) assigns READY to the calling thread immediately before
testing it against BLOCKED, so (absent outside mutation, which this atomic
embedding has none of) the blocking branch never runs: for every monitor,
state map and thread, enter leaves the waiting queue untouched, takes the
non-blocking branch, and grants the caller RUNNING immediately. -/
theorem enter_grants_running_immediately (m : Monitor) (ts : States)
    (t : ThreadId) :
    (Monitor.enter m ts t).condBranch = false ∧
    (Monitor.enter m ts t).monitor = m ∧
    (Monitor.enter m ts t).states t = ThreadState.RUNNING ∧
    (Monitor.enter m ts t).states = setThread ts t ThreadState.RUNNING := by
  have hguard : setThread ts t ThreadState.READY t = ThreadState.READY :=
    setThread_self ts t ThreadState.READY
  refine ⟨?_, ?_, ?_, ?_⟩ <;>
    simp [Monitor.enter, hguard, setThread_setThread, setThread_self]

/-- C10 counterexample: when the calling thread 0 is itself the oldest
entry of the waiting queue, exit(0) pops it and overwrites its state from
RUNNING to BLOCKED, so exit is not free of effects on the caller's state in
general. -/
theorem exit_modifies_caller_at_queue_head :
    allRunning 0 = ThreadState.RUNNING ∧
    (Monitor.exit ⟨[0]⟩ allRunning 0).states 0 = ThreadState.BLOCKED ∧
    ThreadState.BLOCKED ≠ ThreadState.RUNNING := by
  decide

/-- C10 amended: exit(thread) leaves the calling thread's state unchanged
whenever the caller is not the oldest waiter in the queue; and when the
waiting queue is empty, exit changes nothing at all: same monitor, same
state map, and no notify. -/
theorem exit_frame (m : Monitor) (ts : States) (t : ThreadId)
    (h : m.waiting_queue.head? ≠ some t) :
    (Monitor.exit m ts t).states t = ts t ∧
    (m.waiting_queue = [] → Monitor.exit m ts t = ⟨m, ts, false⟩) := by
  obtain ⟨q⟩ := m
  cases q with
  | nil => exact ⟨rfl, fun _ => rfl⟩
  | cons a l =>
      constructor
      · have hat : ¬ t = a := by
          intro hh
          exact h (by simp [hh])
        simp [Monitor.exit, setThread, hat]
      · intro he
        exact absurd he (List.cons_ne_nil a l)

/-- C10 amended witness: the amended claim evaluated on the empty-queue
monitor with caller 0, discharging both hypotheses concretely. -/
theorem exit_frame_witness :
    (([] : List ThreadId).head? ≠ some 0) ∧
    (Monitor.exit ⟨[]⟩ allRunning 0).states 0 = allRunning 0 ∧
    Monitor.exit ⟨[]⟩ allRunning 0 = ⟨⟨[]⟩, allRunning, false⟩ :=
  ⟨by decide, (exit_frame ⟨[]⟩ allRunning 0 (by decide)).1,
   (exit_frame ⟨[]⟩ allRunning 0 (by decide)).2 rfl⟩

end ThreadSim
